import Mathlib

/-!
Shallow embedding of the Cielo HVAC client library (Cielo.js): the device
record (class CieloHVAC), the connection state (class CieloAPIConnection),
the command codec (#buildCommand, #buildCommandPayload), the send path
(sendCommand), the discovery path (subscribeToHVACs) and the realtime
message handler installed in #connect.

JavaScript values that flow through these functions are modelled by the
inductive JSVal below; strict equality (===) is equality on JSVal.
Stateful methods become explicit state passing; the network results they
await (the device-list response, the transport write error) become
parameters; a thrown JavaScript exception becomes an Except error.
-/

namespace Cielo

/-- A dynamically typed JavaScript primitive value, as far as this library
needs: strings, integral numbers, booleans, and undefined. -/
inductive JSVal where
  | str (s : String)
  | num (n : Int)
  | boolean (b : Bool)
  | undef
deriving DecidableEq

/-- Constant DEFAULT_POWER from the source. -/
def DEFAULT_POWER : JSVal := .str "off"

/-- Constant DEFAULT_MODE from the source. -/
def DEFAULT_MODE : JSVal := .str "auto"

/-- Constant DEFAULT_FAN from the source. -/
def DEFAULT_FAN : JSVal := .str "auto"

/-- Constant DEFAULT_TEMPERATURE from the source (a number, 75). -/
def DEFAULT_TEMPERATURE : JSVal := .num 75

/-- One device record: the private fields of class CieloHVAC. -/
structure CieloHVAC where
  power : JSVal
  temperature : JSVal
  mode : JSVal
  fanSpeed : JSVal
  roomTemperature : JSVal
  deviceName : JSVal
  macAddress : JSVal
  applianceID : JSVal
  fwVersion : JSVal
deriving DecidableEq

/-- The CieloHVAC constructor: class-level defaults, then the four
identity fields assigned from the arguments. -/
def CieloHVAC.create (macAddress deviceName applianceID fwVersion : JSVal) :
    CieloHVAC :=
  { power := DEFAULT_POWER
    temperature := DEFAULT_TEMPERATURE
    mode := DEFAULT_MODE
    fanSpeed := DEFAULT_FAN
    roomTemperature := DEFAULT_TEMPERATURE
    deviceName := deviceName
    macAddress := macAddress
    applianceID := applianceID
    fwVersion := fwVersion }

/-- CieloHVAC.updateState: overwrites power, temperature, mode and fan
speed as a group. -/
def CieloHVAC.updateState (h : CieloHVAC)
    (power temperature mode fanSpeed : JSVal) : CieloHVAC :=
  { h with
    power := power
    temperature := temperature
    mode := mode
    fanSpeed := fanSpeed }

/-- CieloHVAC.updateRoomTemperature: overwrites only the room
temperature. -/
def CieloHVAC.updateRoomTemperature (h : CieloHVAC)
    (roomTemperature : JSVal) : CieloHVAC :=
  { h with roomTemperature := roomTemperature }

/-- The mutable state of class CieloAPIConnection: session credentials,
the per-connection command counter, the device registry (field hvacs) and
whether the two notification callbacks supplied to the constructor are
defined. -/
structure CieloAPIConnection where
  sessionID : JSVal
  userID : JSVal
  accessToken : JSVal
  commandCount : Nat
  hvacs : List CieloHVAC
  commandCallbackDefined : Bool
  temperatureCallbackDefined : Bool
deriving DecidableEq

/-- The actions sub-object returned by #buildCommand, field for field. -/
structure CommandActions where
  fanspeed : JSVal
  light : JSVal
  mode : JSVal
  oldPower : JSVal
  power : JSVal
  swing : JSVal
  temp : JSVal
  turbo : JSVal
deriving DecidableEq

/-- #buildCommand(temp, power, fanspeed, mode, isAction, performedAction,
performedValue): note that only the mode and temp fields consult
performedAction; fanspeed and power are always the passed-in current
values, and oldPower always equals power. -/
def buildCommand (temp power fanspeed mode : JSVal) (isAction : Bool)
    (performedAction performedValue : JSVal) : CommandActions :=
  { fanspeed := fanspeed
    light := .str "off"
    mode :=
      if isAction && decide (performedAction = .str "mode") then performedValue
      else mode
    oldPower := power
    power := power
    swing := .str "auto/stop"
    temp :=
      if isAction && decide (performedAction = .str "temp") then performedValue
      else temp
    turbo := .str "off" }

/-- The object serialised by #buildCommandPayload, field for field, in the
key order of the source. There is no field holding the command counter:
the local commandCount computed there is unused. -/
structure CommandPayload where
  action : JSVal
  actionSource : JSVal
  actionType : JSVal
  actionValue : JSVal
  actions : CommandActions
  applianceId : JSVal
  applianceType : JSVal
  application_version : JSVal
  connection_source : JSVal
  deviceTypeVersion : JSVal
  fwVersion : JSVal
  macAddress : JSVal
  mid : JSVal
  token : JSVal
  ts : JSVal
deriving DecidableEq

/-- #buildCommandPayload(hvac, performedAction, performedActionValue).
The post-increment of the private command counter becomes the returned
updated connection state; the timestamp Math.round(Date.now() / 1000)
becomes the parameter ts. -/
def buildCommandPayload (conn : CieloAPIConnection) (hvac : CieloHVAC)
    (performedAction performedActionValue : JSVal) (ts : Int) :
    CieloAPIConnection × CommandPayload :=
  let commandCount := conn.commandCount
  let connAfter : CieloAPIConnection :=
    { conn with commandCount := commandCount + 1 }
  let deviceTypeVersion : JSVal := .str "BP01"
  (connAfter,
    { action := .str "actionControl"
      actionSource := .str "WEB"
      actionType := performedAction
      actionValue := performedActionValue
      actions :=
        buildCommand hvac.temperature hvac.power hvac.fanSpeed hvac.mode
          true performedAction performedActionValue
      applianceId := hvac.applianceID
      applianceType := .str "AC"
      application_version := .str "1.0.0"
      connection_source := .num 0
      deviceTypeVersion := deviceTypeVersion
      fwVersion := hvac.fwVersion
      macAddress := hvac.macAddress
      mid := conn.sessionID
      token := conn.accessToken
      ts := .num ts })

/-- A thrown JavaScript runtime exception. -/
inductive JSError where
  | typeError (message : String)
  | referenceError (message : String)
deriving DecidableEq

/-- How the promise returned by sendCommand settles, or fails to: the
callback passed to ws.send may also throw, in which case neither resolve
nor reject ever runs. -/
inductive SendOutcome where
  | resolved
  | rejected (e : JSVal)
  | thrown (exn : JSError)
deriving DecidableEq

/-- Whether an identifier named log is declared anywhere in the module
(or as a Node global): it is not. The send-error branch of sendCommand
nevertheless evaluates log.error(error). -/
def logDefined : Bool := false

/-- The callback sendCommand passes to ws.send, applied to the optional
write error the transport reports. On a write error the source first
evaluates log.error(error) - a reference to the undeclared name log,
which throws a ReferenceError - so reject(error) on the following line is
never reached. -/
def sendCommandCallback (writeError : Option JSVal) : SendOutcome :=
  match writeError with
  | some e =>
      if logDefined then SendOutcome.rejected e
      else SendOutcome.thrown (.referenceError "log is not defined")
  | none => SendOutcome.resolved

/-- sendCommand(hvac, performedAction, performedActionValue): builds the
payload (incrementing the command counter) and writes it to the open
socket; writeError is the error the transport reports to the write
callback, if any. -/
def sendCommand (conn : CieloAPIConnection) (hvac : CieloHVAC)
    (performedAction performedActionValue : JSVal) (ts : Int)
    (writeError : Option JSVal) : CieloAPIConnection × SendOutcome :=
  let built := buildCommandPayload conn hvac performedAction performedActionValue ts
  (built.1, sendCommandCallback writeError)

/-- The action sub-object of an inbound message, and the latestAction
object of a discovery listing. -/
structure ActionObj where
  power : JSVal
  temp : JSVal
  mode : JSVal
  fanspeed : JSVal
deriving DecidableEq

/-- The lat_env_var sub-object of an inbound message. -/
structure LatEnvVar where
  temperature : JSVal
deriving DecidableEq

/-- A parsed inbound websocket message. A sub-object that is absent from
the JSON (or is not an object) is modelled as none. -/
structure InboundMessage where
  message_type : JSVal
  mid : JSVal
  action : Option ActionObj
  lat_env_var : Option LatEnvVar
  mac_address : JSVal
deriving DecidableEq

/-- One invocation of a caller-supplied notification callback. -/
inductive CallbackEvent where
  | command (status : ActionObj)
  | temperature (roomTemp : JSVal)
deriving DecidableEq

/-- JavaScript truthiness test used by the message guard: the value is a
non-empty string. -/
def isNonemptyString (v : JSVal) : Bool :=
  match v with
  | .str s => !s.isEmpty
  | _ => false

/-- The guard at the top of the message handler: message_type is a
non-empty string and action is a present object. -/
def messageGuard (m : InboundMessage) : Bool :=
  isNonemptyString m.message_type && m.action.isSome

/-- The websocket message handler installed in #connect. Returns the
updated connection state and the list of notification-callback
invocations, or the JavaScript exception the handler throws. Reading
data.lat_env_var.temperature happens before the switch on data.mid, so a
guarded message without a lat_env_var object throws a TypeError whatever
its mid is. -/
def handleMessage (conn : CieloAPIConnection) (data : InboundMessage) :
    Except JSError (CieloAPIConnection × List CallbackEvent) :=
  if messageGuard data then
    match data.action with
    | none => .ok (conn, [])
    | some status =>
      match data.lat_env_var with
      | none =>
          .error (.typeError "cannot read properties of undefined")
      | some latEnv =>
        let roomTemp := latEnv.temperature
        let thisMac := data.mac_address
        if data.mid = .str "WEB" then
          let hvacs := conn.hvacs.map fun hvac =>
            if hvac.macAddress = thisMac then
              hvac.updateState status.power status.temp status.mode
                status.fanspeed
            else hvac
          let events :=
            if conn.commandCallbackDefined then
              [CallbackEvent.command status]
            else []
          .ok ({ conn with hvacs := hvacs }, events)
        else if data.mid = .str "Heartbeat" then
          let hvacs := conn.hvacs.map fun hvac =>
            if hvac.macAddress = thisMac then
              hvac.updateRoomTemperature roomTemp
            else hvac
          let events :=
            if conn.temperatureCallbackDefined then
              [CallbackEvent.temperature roomTemp]
            else []
          .ok ({ conn with hvacs := hvacs }, events)
        else .ok (conn, [])
  else .ok (conn, [])

/-- One entry of responseJSON.data.listDevices in the device-info
response consumed by subscribeToHVACs. -/
structure DeviceListing where
  macAddress : JSVal
  deviceName : JSVal
  applianceId : JSVal
  fwVersion : JSVal
  latestAction : ActionObj
  latEnvTemp : JSVal
deriving DecidableEq

/-- The device-info response as subscribeToHVACs reads it: an optional
error field and data.listDevices. -/
structure DeviceInfoResponse where
  error : Option JSVal
  listDevices : List DeviceListing
deriving DecidableEq

/-- The record construction inside the discovery loop: new CieloHVAC(...)
then updateState from latestAction then updateRoomTemperature from
latEnv.temp. -/
def seedHVAC (device : DeviceListing) : CieloHVAC :=
  let hvac :=
    CieloHVAC.create device.macAddress device.deviceName device.applianceId
      device.fwVersion
  let hvac :=
    hvac.updateState device.latestAction.power device.latestAction.temp
      device.latestAction.mode device.latestAction.fanspeed
  hvac.updateRoomTemperature device.latEnvTemp

/-- subscribeToHVACs(macAddresses): clears the registry and the command
counter, then inspects the awaited device-info response; on a backend
error it rejects with that error payload, otherwise it fills the registry
with the listings whose macAddress the caller requested. The second
component is the rejection value of the returned promise, if any. -/
def subscribeToHVACs (conn : CieloAPIConnection) (macAddresses : List JSVal)
    (deviceInfo : DeviceInfoResponse) : CieloAPIConnection × Option JSVal :=
  let conn0 : CieloAPIConnection := { conn with hvacs := [], commandCount := 0 }
  match deviceInfo.error with
  | some e => (conn0, some e)
  | none =>
    let hvacs := deviceInfo.listDevices.foldl
      (fun acc device =>
        if device.macAddress ∈ macAddresses then acc ++ [seedHVAC device]
        else acc)
      []
    ({ conn0 with hvacs := hvacs }, none)

/-! Concrete fixtures reused by the witness and counterexample theorems. -/

/-- A concrete device record as discovery would build it: identity fields
set, state fields at the class defaults (power off, temperature 75, mode
auto, fan auto). -/
def demoHvac : CieloHVAC :=
  CieloHVAC.create (.str "AA:BB:CC:DD:EE:FF") (.str "Living Room") (.num 42)
    (.str "2.4.2")

/-- A concrete connection state whose registry holds demoHvac and whose
notification callbacks are both defined. -/
def demoConn : CieloAPIConnection :=
  { sessionID := .str "sid-1"
    userID := .str "uid-1"
    accessToken := .str "tok-1"
    commandCount := 0
    hvacs := [demoHvac]
    commandCallbackDefined := true
    temperatureCallbackDefined := true }

/-- A device-info response with no backend error and no listings. -/
def emptyDeviceInfo : DeviceInfoResponse := { error := none, listDevices := [] }

/-- A device-info response carrying a backend error payload. -/
def errDeviceInfo : DeviceInfoResponse :=
  { error := some (.str "boom"), listDevices := [] }

/-- Claim C1, counterexample: for the attribute power with value on, the
control vector built by buildCommandPayload keeps the device current
power (off) instead of replacing it with the given value (on), so the
named field is not replaced. -/
theorem c1_counterexample :
    ((buildCommandPayload demoConn demoHvac (.str "power") (.str "on")
        0).2).actions.power = .str "off" ∧
    JSVal.str "off" ≠ JSVal.str "on" :=
  ⟨rfl, by decide⟩

/-- Claim C1, amended: buildCommandPayload replaces the named field of
the control vector only for the attributes temp and mode; for power and
fanspeed every vector field keeps the device current value and the
requested change is carried only in actionType and actionValue. -/
theorem c1_amended_overrides (conn : CieloAPIConnection) (hvac : CieloHVAC)
    (v : JSVal) (ts : Int) :
    (((buildCommandPayload conn hvac (.str "temp") v ts).2).actions =
      { fanspeed := hvac.fanSpeed, light := .str "off", mode := hvac.mode,
        oldPower := hvac.power, power := hvac.power, swing := .str "auto/stop",
        temp := v, turbo := .str "off" }) ∧
    (((buildCommandPayload conn hvac (.str "mode") v ts).2).actions =
      { fanspeed := hvac.fanSpeed, light := .str "off", mode := v,
        oldPower := hvac.power, power := hvac.power, swing := .str "auto/stop",
        temp := hvac.temperature, turbo := .str "off" }) ∧
    (((buildCommandPayload conn hvac (.str "power") v ts).2).actions =
      { fanspeed := hvac.fanSpeed, light := .str "off", mode := hvac.mode,
        oldPower := hvac.power, power := hvac.power, swing := .str "auto/stop",
        temp := hvac.temperature, turbo := .str "off" }) ∧
    (((buildCommandPayload conn hvac (.str "power") v ts).2).actionType =
        .str "power" ∧
      ((buildCommandPayload conn hvac (.str "power") v ts).2).actionValue = v) ∧
    (((buildCommandPayload conn hvac (.str "fanspeed") v ts).2).actions =
      { fanspeed := hvac.fanSpeed, light := .str "off", mode := hvac.mode,
        oldPower := hvac.power, power := hvac.power, swing := .str "auto/stop",
        temp := hvac.temperature, turbo := .str "off" }) ∧
    (((buildCommandPayload conn hvac (.str "fanspeed") v ts).2).actionType =
        .str "fanspeed" ∧
      ((buildCommandPayload conn hvac (.str "fanspeed") v ts).2).actionValue = v) :=
  ⟨rfl, rfl, rfl, ⟨rfl, rfl⟩, rfl, ⟨rfl, rfl⟩⟩

/-- Claim C3: on a transport write error the send callback evaluates
log.error(error) on the undeclared name log and throws a ReferenceError,
so the promise returned by sendCommand is never rejected with the
transport error, contrary to the documented behaviour. -/
theorem c3_divergence :
    (sendCommand demoConn demoHvac (.str "power") (.str "on") 0
        (some (.str "write EPIPE"))).2 =
      SendOutcome.thrown (.referenceError "log is not defined") ∧
    (sendCommand demoConn demoHvac (.str "power") (.str "on") 0
        (some (.str "write EPIPE"))).2 ≠
      SendOutcome.rejected (.str "write EPIPE") :=
  ⟨rfl, by decide⟩

/-- Claim C4, counterexample: the outbound payload does not contain the
per-connection command sequence number: two connection states that differ
only in that counter (0 versus 999) produce identical payloads. -/
theorem c4_counterexample :
    (buildCommandPayload { demoConn with commandCount := 0 } demoHvac
        (.str "temp") (.str "68") 5).2 =
      (buildCommandPayload { demoConn with commandCount := 999 } demoHvac
        (.str "temp") (.str "68") 5).2 ∧
    (0 : Nat) ≠ 999 :=
  ⟨rfl, by decide⟩

/-- Claim C4, amended: the payload carries the session id (as mid), the
access token, the device identifier, the appliance identifier, the
firmware version and the timestamp in seconds since epoch; the command
counter is incremented on every call but its value is not part of the
payload. -/
theorem c4_amended_metadata (conn : CieloAPIConnection) (hvac : CieloHVAC)
    (a v : JSVal) (ts : Int) (n : Nat) :
    ((buildCommandPayload conn hvac a v ts).2).mid = conn.sessionID ∧
    ((buildCommandPayload conn hvac a v ts).2).token = conn.accessToken ∧
    ((buildCommandPayload conn hvac a v ts).2).macAddress = hvac.macAddress ∧
    ((buildCommandPayload conn hvac a v ts).2).applianceId = hvac.applianceID ∧
    ((buildCommandPayload conn hvac a v ts).2).fwVersion = hvac.fwVersion ∧
    ((buildCommandPayload conn hvac a v ts).2).ts = .num ts ∧
    ((buildCommandPayload conn hvac a v ts).1).commandCount =
      conn.commandCount + 1 ∧
    (buildCommandPayload { conn with commandCount := n } hvac a v ts).2 =
      (buildCommandPayload conn hvac a v ts).2 :=
  ⟨rfl, rfl, rfl, rfl, rfl, rfl, rfl, rfl⟩

/-- Claim C6: the command counter increases by exactly 1 on every
sendCommand call, and after a successful subscribeToHVACs call it
equals 0. -/
theorem c6_counter :
    (∀ (conn : CieloAPIConnection) (hvac : CieloHVAC) (a v : JSVal) (ts : Int)
        (we : Option JSVal),
      ((sendCommand conn hvac a v ts we).1).commandCount =
        conn.commandCount + 1) ∧
    (∀ (conn : CieloAPIConnection) (macs : List JSVal)
        (di : DeviceInfoResponse),
      (subscribeToHVACs conn macs di).2 = none →
      ((subscribeToHVACs conn macs di).1).commandCount = 0) := by
  refine ⟨fun conn hvac a v ts we => rfl, fun conn macs di _h => ?_⟩
  rcases di with ⟨err, listing⟩
  rcases err with _ | e <;> rfl

/-- Witness for C6 at concrete inputs. -/
theorem c6_witness :
    ((sendCommand demoConn demoHvac (.str "temp") (.str "68") 5
        none).1).commandCount = demoConn.commandCount + 1 ∧
    ((subscribeToHVACs demoConn [] emptyDeviceInfo).1).commandCount = 0 :=
  ⟨c6_counter.1 demoConn demoHvac (.str "temp") (.str "68") 5 none,
   c6_counter.2 demoConn [] emptyDeviceInfo rfl⟩

/-- Claim C7: when the device-info response carries a backend error,
subscribeToHVACs leaves the registry empty, resets the counter, and
rejects with exactly that error payload. -/
theorem c7_discovery_error (conn : CieloAPIConnection) (macs : List JSVal)
    (di : DeviceInfoResponse) (e : JSVal) (herr : di.error = some e) :
    subscribeToHVACs conn macs di =
      ({ conn with hvacs := [], commandCount := 0 }, some e) := by
  unfold subscribeToHVACs
  rw [herr]

/-- Witness for C7 at concrete inputs. -/
theorem c7_witness :
    subscribeToHVACs demoConn [JSVal.str "AA:BB:CC:DD:EE:FF"] errDeviceInfo =
      ({ demoConn with hvacs := [], commandCount := 0 }, some (.str "boom")) :=
  c7_discovery_error demoConn [JSVal.str "AA:BB:CC:DD:EE:FF"] errDeviceInfo
    (.str "boom") rfl

/-- Claim C9: buildCommandPayload with attribute temp and value 68 yields
actions.temp equal to 68, the other action fields equal to the device
current state, and actions.oldPower equal to the device current power. -/
theorem c9_temp68 (conn : CieloAPIConnection) (hvac : CieloHVAC) (ts : Int) :
    (((buildCommandPayload conn hvac (.str "temp") (.str "68")
        ts).2).actions.temp = .str "68") ∧
    (((buildCommandPayload conn hvac (.str "temp") (.str "68")
        ts).2).actions.power = hvac.power) ∧
    (((buildCommandPayload conn hvac (.str "temp") (.str "68")
        ts).2).actions.mode = hvac.mode) ∧
    (((buildCommandPayload conn hvac (.str "temp") (.str "68")
        ts).2).actions.fanspeed = hvac.fanSpeed) ∧
    (((buildCommandPayload conn hvac (.str "temp") (.str "68")
        ts).2).actions.oldPower = hvac.power) :=
  ⟨rfl, rfl, rfl, rfl, rfl⟩

/-- The action object of the C2 scenario message. -/
def actOff70 : ActionObj :=
  { power := .str "off", temp := .str "70", mode := .str "auto",
    fanspeed := .str "auto" }

/-- The C2 scenario message exactly as written: it carries no lat_env_var
member. -/
def msgScenario : InboundMessage :=
  { message_type := .str "x"
    mid := .str "WEB"
    action := some actOff70
    lat_env_var := none
    mac_address := .str "AA:BB:CC:DD:EE:FF" }

/-- The C2 scenario message completed with a lat_env_var object, as the
inbound wire schema prescribes. -/
def msgScenarioFull (t : JSVal) : InboundMessage :=
  { msgScenario with lat_env_var := some { temperature := t } }

/-- A schema-complete heartbeat message for the demo device. -/
def msgHeartbeat : InboundMessage :=
  { message_type := .str "x"
    mid := .str "Heartbeat"
    action := some actOff70
    lat_env_var := some { temperature := .num 71 }
    mac_address := .str "AA:BB:CC:DD:EE:FF" }

/-- A schema-complete message whose device identifier matches no record
of demoConn. -/
def msgNoMatch : InboundMessage :=
  { msgHeartbeat with mac_address := .str "11:22:33:44:55:66" }

/-- Projection of the field group that updateState overwrites. -/
def stateFields (h : CieloHVAC) : JSVal × JSVal × JSVal × JSVal :=
  (h.power, h.temperature, h.mode, h.fanSpeed)

/-- Mapping a record transformer over a list and then projecting a field
the transformer preserves is the same as projecting directly. -/
theorem map_proj_of_preserve {β : Type} (g : CieloHVAC → β)
    (f : CieloHVAC → CieloHVAC) (hfg : ∀ a, g (f a) = g a)
    (l : List CieloHVAC) : (l.map f).map g = l.map g := by
  induction l with
  | nil => rfl
  | cons a l ih => simp only [List.map_cons, hfg, ih]

/-- The per-record update of the message handler is the identity on a
registry in which no record carries the target identifier. -/
theorem map_update_no_match (l : List CieloHVAC) (mac : JSVal)
    (u : CieloHVAC → CieloHVAC)
    (hn : ∀ hvac ∈ l, hvac.macAddress ≠ mac) :
    (l.map fun hvac => if hvac.macAddress = mac then u hvac else hvac) = l := by
  induction l with
  | nil => rfl
  | cons a l ih =>
    simp only [List.map_cons]
    rw [if_neg (hn a (List.mem_cons_self a l)),
      ih fun b hb => hn b (List.mem_cons_of_mem a hb)]

/-- Claim C2, counterexample: on the scenario message exactly as written,
which has no lat_env_var member, the handler throws a TypeError while
reading data.lat_env_var.temperature, so it neither updates the record
nor invokes the callback. -/
theorem c2_counterexample :
    handleMessage demoConn msgScenario =
      .error (.typeError "cannot read properties of undefined") := rfl

/-- Claim C2, amended: when the scenario message additionally carries the
lat_env_var object required by the inbound schema, the handler succeeds,
sets the matching record to power off, temp 70, mode auto and fanspeed
auto, and invokes the command callback with the action object once. -/
theorem c2_amended_scenario (conn : CieloAPIConnection) (t : JSVal)
    (hcb : conn.commandCallbackDefined = true)
    (hvac : CieloHVAC) (hmem : hvac ∈ conn.hvacs)
    (hmac : hvac.macAddress = .str "AA:BB:CC:DD:EE:FF") :
    ∃ conn',
      handleMessage conn (msgScenarioFull t) =
        .ok (conn', [CallbackEvent.command actOff70]) ∧
      hvac.updateState (.str "off") (.str "70") (.str "auto") (.str "auto")
        ∈ conn'.hvacs ∧
      (hvac.updateState (.str "off") (.str "70") (.str "auto")
          (.str "auto")).power = .str "off" ∧
      (hvac.updateState (.str "off") (.str "70") (.str "auto")
          (.str "auto")).temperature = .str "70" ∧
      (hvac.updateState (.str "off") (.str "70") (.str "auto")
          (.str "auto")).mode = .str "auto" ∧
      (hvac.updateState (.str "off") (.str "70") (.str "auto")
          (.str "auto")).fanSpeed = .str "auto" := by
  refine ⟨{ conn with hvacs := conn.hvacs.map fun hv =>
      if hv.macAddress = JSVal.str "AA:BB:CC:DD:EE:FF" then
        hv.updateState (.str "off") (.str "70") (.str "auto") (.str "auto")
      else hv }, ?_, ?_, rfl, rfl, rfl, rfl⟩
  · unfold handleMessage
    rw [hcb]
    rfl
  · exact List.mem_map.mpr ⟨hvac, hmem, by rw [hmac]; rfl⟩

/-- Witness for the amended C2 at concrete inputs. -/
theorem c2_witness :
    ∃ conn',
      handleMessage demoConn (msgScenarioFull (.num 71)) =
        .ok (conn', [CallbackEvent.command actOff70]) ∧
      demoHvac.updateState (.str "off") (.str "70") (.str "auto") (.str "auto")
        ∈ conn'.hvacs ∧
      (demoHvac.updateState (.str "off") (.str "70") (.str "auto")
          (.str "auto")).power = .str "off" ∧
      (demoHvac.updateState (.str "off") (.str "70") (.str "auto")
          (.str "auto")).temperature = .str "70" ∧
      (demoHvac.updateState (.str "off") (.str "70") (.str "auto")
          (.str "auto")).mode = .str "auto" ∧
      (demoHvac.updateState (.str "off") (.str "70") (.str "auto")
          (.str "auto")).fanSpeed = .str "auto" :=
  c2_amended_scenario demoConn (.num 71) rfl demoHvac (by simp [demoConn])
    rfl

/-- Claim C5: whenever the handler completes without throwing, a
Heartbeat message leaves the power, temperature, mode and fan-speed
fields of every record unchanged, and a WEB message leaves the room
temperature of every record unchanged. -/
theorem c5_frame (conn conn' : CieloAPIConnection) (msg : InboundMessage)
    (events : List CallbackEvent)
    (h : handleMessage conn msg = .ok (conn', events)) :
    (msg.mid = .str "Heartbeat" →
      conn'.hvacs.map stateFields = conn.hvacs.map stateFields) ∧
    (msg.mid = .str "WEB" →
      conn'.hvacs.map (fun hv => hv.roomTemperature) =
        conn.hvacs.map (fun hv => hv.roomTemperature)) := by
  unfold handleMessage at h
  split at h
  · split at h
    · simp only [Except.ok.injEq, Prod.mk.injEq] at h
      obtain ⟨rfl, -⟩ := h
      exact ⟨fun _ => rfl, fun _ => rfl⟩
    · split at h
      · exact Except.noConfusion h
      · split at h
        · next hW =>
          simp only [Except.ok.injEq, Prod.mk.injEq] at h
          obtain ⟨rfl, -⟩ := h
          constructor
          · intro hHB
            exact absurd (hW.symm.trans hHB) (by decide)
          · intro _
            exact map_proj_of_preserve _ _
              (fun a => by
                by_cases hma : a.macAddress = msg.mac_address
                · rw [if_pos hma]; rfl
                · rw [if_neg hma])
              conn.hvacs
        · split at h
          · next hHB =>
            simp only [Except.ok.injEq, Prod.mk.injEq] at h
            obtain ⟨rfl, -⟩ := h
            constructor
            · intro _
              exact map_proj_of_preserve _ _
                (fun a => by
                  by_cases hma : a.macAddress = msg.mac_address
                  · rw [if_pos hma]; rfl
                  · rw [if_neg hma])
                conn.hvacs
            · intro hW
              exact absurd (hHB.symm.trans hW) (by decide)
          · simp only [Except.ok.injEq, Prod.mk.injEq] at h
            obtain ⟨rfl, -⟩ := h
            exact ⟨fun _ => rfl, fun _ => rfl⟩
  · simp only [Except.ok.injEq, Prod.mk.injEq] at h
    obtain ⟨rfl, -⟩ := h
    exact ⟨fun _ => rfl, fun _ => rfl⟩

/-- The connection state after demoConn handles msgHeartbeat. -/
def demoConnAfterHB : CieloAPIConnection :=
  { demoConn with hvacs := [demoHvac.updateRoomTemperature (.num 71)] }

/-- Witness for C5 at concrete inputs. -/
theorem c5_witness :
    (msgHeartbeat.mid = .str "Heartbeat" →
      demoConnAfterHB.hvacs.map stateFields =
        demoConn.hvacs.map stateFields) ∧
    (msgHeartbeat.mid = .str "WEB" →
      demoConnAfterHB.hvacs.map (fun hv => hv.roomTemperature) =
        demoConn.hvacs.map (fun hv => hv.roomTemperature)) :=
  c5_frame demoConn demoConnAfterHB msgHeartbeat
    [CallbackEvent.temperature (.num 71)] rfl

/-- Claim C8: a schema-complete message whose device identifier matches
no record of the registry leaves the connection state exactly as it was
and throws nothing. -/
theorem c8_no_match (conn : CieloAPIConnection) (msg : InboundMessage)
    (latEnv : LatEnvVar) (hlev : msg.lat_env_var = some latEnv)
    (hnomatch : ∀ hvac ∈ conn.hvacs, hvac.macAddress ≠ msg.mac_address) :
    ∃ events, handleMessage conn msg = .ok (conn, events) := by
  rcases msg with ⟨mt, mid, act, lev, mac⟩
  simp only at hlev hnomatch
  subst hlev
  by_cases hg :
      messageGuard ⟨mt, mid, act, some latEnv, mac⟩ = true
  · rcases act with _ | status
    · exact ⟨[], by unfold handleMessage; rw [if_pos hg]⟩
    · by_cases hW : mid = JSVal.str "WEB"
      · refine ⟨if conn.commandCallbackDefined then
            [CallbackEvent.command status] else [], ?_⟩
        unfold handleMessage
        rw [if_pos hg]
        dsimp only
        rw [if_pos hW, map_update_no_match _ _ _ hnomatch]
      · by_cases hHB : mid = JSVal.str "Heartbeat"
        · refine ⟨if conn.temperatureCallbackDefined then
              [CallbackEvent.temperature latEnv.temperature] else [], ?_⟩
          unfold handleMessage
          rw [if_pos hg]
          dsimp only
          rw [if_neg hW, if_pos hHB, map_update_no_match _ _ _ hnomatch]
        · exact ⟨[], by
            unfold handleMessage
            rw [if_pos hg]
            dsimp only
            rw [if_neg hW, if_neg hHB]⟩
  · exact ⟨[], by unfold handleMessage; rw [if_neg hg]⟩

/-- Witness for C8 at concrete inputs. -/
theorem c8_witness :
    ∃ events, handleMessage demoConn msgNoMatch = .ok (demoConn, events) :=
  c8_no_match demoConn msgNoMatch { temperature := .num 71 } rfl (by decide)

/-- Claim C10: on a guarded, schema-complete message, the matching
notification callback is invoked exactly once whatever the registry
contains: the command callback with the action object for mid WEB, the
temperature callback with the room temperature for mid Heartbeat. -/
theorem c10_callbacks (conn : CieloAPIConnection) (msg : InboundMessage)
    (status : ActionObj) (latEnv : LatEnvVar)
    (hmt : isNonemptyString msg.message_type = true)
    (hact : msg.action = some status)
    (hlev : msg.lat_env_var = some latEnv) :
    (msg.mid = .str "WEB" → conn.commandCallbackDefined = true →
      ∃ conn', handleMessage conn msg =
        .ok (conn', [CallbackEvent.command status])) ∧
    (msg.mid = .str "Heartbeat" → conn.temperatureCallbackDefined = true →
      ∃ conn', handleMessage conn msg =
        .ok (conn', [CallbackEvent.temperature latEnv.temperature])) := by
  rcases msg with ⟨mt, mid, act, lev, mac⟩
  simp only at hmt hact hlev
  subst hact
  subst hlev
  have hg : messageGuard ⟨mt, mid, some status, some latEnv, mac⟩ = true := by
    unfold messageGuard
    dsimp only
    rw [hmt]
    rfl
  constructor
  · intro hW hcb
    refine ⟨{ conn with hvacs := conn.hvacs.map fun hvac =>
        if hvac.macAddress = mac then
          hvac.updateState status.power status.temp status.mode status.fanspeed
        else hvac }, ?_⟩
    unfold handleMessage
    rw [if_pos hg]
    dsimp only
    rw [if_pos hW, hcb]
    rfl
  · intro hHB hcb
    simp only at hHB
    have hnW : ¬ mid = JSVal.str "WEB" := by
      rw [hHB]; decide
    refine ⟨{ conn with hvacs := conn.hvacs.map fun hvac =>
        if hvac.macAddress = mac then
          hvac.updateRoomTemperature latEnv.temperature
        else hvac }, ?_⟩
    unfold handleMessage
    rw [if_pos hg]
    dsimp only
    rw [if_neg hnW, if_pos hHB, hcb]
    rfl

/-- Witness for C10 at concrete inputs. -/
theorem c10_witness :
    (msgHeartbeat.mid = .str "WEB" → demoConn.commandCallbackDefined = true →
      ∃ conn', handleMessage demoConn msgHeartbeat =
        .ok (conn', [CallbackEvent.command actOff70])) ∧
    (msgHeartbeat.mid = .str "Heartbeat" →
      demoConn.temperatureCallbackDefined = true →
      ∃ conn', handleMessage demoConn msgHeartbeat =
        .ok (conn', [CallbackEvent.temperature (.num 71)])) :=
  c10_callbacks demoConn msgHeartbeat actOff70 { temperature := .num 71 }
    rfl rfl rfl

end Cielo
